import Mathlib

/-!
Shallow embedding of `library/ft5406.py`, a decoder for the Linux evdev
multitouch "Type B" slot protocol.  Python classes become Lean structures,
in-place attribute mutation becomes functional record update, and the read
loop of `Touchscreen.poll` becomes structural recursion over the list of
remaining input records (respectively raw byte chunks for the byte-level
loop).  Callbacks receive `(event, self)` in Python; here a callback slot is
modelled by a `Bool` ("is a callable registered", mirroring the
`callable(self.on_move)` test) and an invocation is logged as a `Call` value,
so theorems can speak about which callbacks fired and in which order.
-/

namespace FT5406

/-- `TOUCH_X = 0` (module constant). -/
def TOUCH_X : Nat := 0

/-- `TOUCH_Y = 1` (module constant). -/
def TOUCH_Y : Nat := 1

/-- `EV_SYN = 0`. -/
def EV_SYN : Nat := 0

/-- `EV_ABS = 3`. -/
def EV_ABS : Nat := 3

/-- `ABS_X = 0`. -/
def ABS_X : Nat := 0

/-- `ABS_Y = 1`. -/
def ABS_Y : Nat := 1

/-- `ABS_MT_SLOT = 0x2f`: MT slot being modified. -/
def ABS_MT_SLOT : Nat := 47

/-- `ABS_MT_POSITION_X = 0x35`: center X of multi touch position. -/
def ABS_MT_POSITION_X : Nat := 53

/-- `ABS_MT_POSITION_Y = 0x36`: center Y of multi touch position. -/
def ABS_MT_POSITION_Y : Nat := 54

/-- `ABS_MT_TRACKING_ID = 0x39`: unique ID of initiated contact. -/
def ABS_MT_TRACKING_ID : Nat := 57

/-- `TS_PRESS = 1`. -/
def TS_PRESS : Nat := 1

/-- `TS_RELEASE = 0`. -/
def TS_RELEASE : Nat := 0

/-- `TS_MOVE = 2`. -/
def TS_MOVE : Nat := 2

/-- The class `Touch`.  Fields `x`, `y`, `id` model the Python attributes
`_x`, `_y`, `_id` that back the properties of the same public names; `events`
is the pending-event list; the three `on_` fields record whether a callable
callback is attached (Python initialises them to `None`, i.e. `false`). -/
structure Touch where
  slot : Int
  x : Int
  y : Int
  last_x : Int
  last_y : Int
  id : Int
  events : List Nat
  on_move : Bool
  on_press : Bool
  on_release : Bool
deriving DecidableEq, Repr

/-- `Touch.__init__(slot, x, y)`. -/
def Touch.init (slot x y : Int) : Touch :=
  { slot := slot, x := x, y := y, last_x := -1, last_y := -1, id := -1,
    events := [], on_move := false, on_press := false, on_release := false }

/-- The `valid` property: `self.id > -1`. -/
def Touch.valid (t : Touch) : Bool :=
  decide ((-1 : Int) < t.id)

/-- The `id` property setter:
```
if value != self._id:
    if value == -1 and not TS_RELEASE in self.events:
        self.events.append(TS_RELEASE)
    elif not TS_PRESS in self.events:
        self.events.append(TS_PRESS)
self._id = value
``` -/
def Touch.setId (t : Touch) (value : Int) : Touch :=
  let t' :=
    if value ≠ t.id then
      if value = -1 ∧ TS_RELEASE ∉ t.events then
        { t with events := t.events ++ [TS_RELEASE] }
      else if TS_PRESS ∉ t.events then
        { t with events := t.events ++ [TS_PRESS] }
      else t
    else t
  { t' with id := value }

/-- The `x` property setter:
```
if value != self._x and not TS_MOVE in self.events:
    self.events.append(TS_MOVE)
self.last_x = self._x
self._x = value
``` -/
def Touch.setX (t : Touch) (value : Int) : Touch :=
  { t with
    events := if value ≠ t.x ∧ TS_MOVE ∉ t.events then t.events ++ [TS_MOVE] else t.events,
    last_x := t.x,
    x := value }

/-- The `y` property setter (mirror image of the `x` setter). -/
def Touch.setY (t : Touch) (value : Int) : Touch :=
  { t with
    events := if value ≠ t.y ∧ TS_MOVE ∉ t.events then t.events ++ [TS_MOVE] else t.events,
    last_y := t.y,
    y := value }

/-- Identifies, for the invocation log, which object a callback was invoked
on: one of the ten slot touches, or the single-touch `position` object.
(`positionSrc` exists so that theorems can state that the dispatcher never
invokes the position object's callbacks; the source's dispatch loop iterates
only `self.touches`.) -/
inductive CallSource where
  | touchSlot (slot : Int)
  | positionSrc
deriving DecidableEq, Repr

/-- Whether a logged call was made on the single-touch position object. -/
def CallSource.isPosition : CallSource → Bool
  | .positionSrc => true
  | .touchSlot _ => false

/-- One logged callback invocation: the object it was invoked on and the
event constant passed as the first argument. -/
structure Call where
  src : CallSource
  event : Nat
deriving DecidableEq, Repr

/-- The body of the `Touch.handle_events` loop for one entry `e` of the
pending list:
```
if event == TS_MOVE and callable(self.on_move):
    self.on_move(event, self)
if event == TS_PRESS and callable(self.on_press):
    self.on_press(event, self)
if event == TS_RELEASE and callable(self.on_release):
    self.on_release(event, self)
``` -/
def Touch.callsFor (t : Touch) (e : Nat) : List Call :=
  (if e = TS_MOVE ∧ t.on_move then [Call.mk (.touchSlot t.slot) TS_MOVE] else []) ++
  (if e = TS_PRESS ∧ t.on_press then [Call.mk (.touchSlot t.slot) TS_PRESS] else []) ++
  (if e = TS_RELEASE ∧ t.on_release then [Call.mk (.touchSlot t.slot) TS_RELEASE] else [])

/-- `Touch.handle_events`: run the loop body over the pending list in
insertion order, then `self.events = []`.  Returns the touch with its
pending list cleared together with the ordered list of callback
invocations (callbacks are modelled as pure observers). -/
def Touch.handle_events (t : Touch) : Touch × List Call :=
  ({ t with events := [] }, t.events.flatMap t.callsFor)

/-- The dispatch loop of `Touchscreen.poll` on a SYN record:
`for touch in self.touches: touch.handle_events()`, collecting the updated
touches and the concatenated invocation log in slot order. -/
def dispatchAll : List Touch → List Touch × List Call
  | [] => ([], [])
  | t :: rest =>
    let p := t.handle_events
    let q := dispatchAll rest
    (p.1 :: q.1, p.2 ++ q.2)

/-- One decoded input record, `TouchEvent = namedtuple('TouchEvent',
('timestamp', 'type', 'code', 'value'))`.  The timestamp
`tv_sec + tv_usec / 1000000` is modelled as an exact rational (the source
computes a Python float; no behaviour in `poll` consumes it). -/
structure TouchEvent where
  timestamp : ℚ
  type : Nat
  code : Nat
  value : Int
deriving DecidableEq, Repr

/-- Python exceptions that the decoding path can raise:
`struct.error` from `struct.unpack` on a buffer whose length differs from
the required record size (the message names only the required size, so the
payload is that size), and `IndexError` from `self.touches[self._touch_slot]`. -/
inductive PyError where
  | structError (requiredSize : Nat)
  | indexError
deriving DecidableEq, Repr

/-- The class `Touchscreen`: the single-touch `position` object, the ten
slot touches, and the `_touch_slot` cursor.  The device file handle and the
background-thread fields are the byte stream and are passed explicitly to
the poll functions. -/
structure Touchscreen where
  position : Touch
  touches : List Touch
  touch_slot : Int
deriving DecidableEq, Repr

/-- `Touchscreen.__init__` (state part): `self.position = Touch(0, 0, 0)`,
`self.touches = Touches([Touch(x, 0, 0) for x in range(10)])`,
`self._touch_slot = 0`. -/
def Touchscreen.init : Touchscreen :=
  { position := Touch.init 0 0 0,
    touches := (List.range 10).map fun i => Touch.init (i : Int) 0 0,
    touch_slot := 0 }

/-- Python list indexing: a negative index `i` addresses `len + i`; an index
outside `[-len, len)` raises `IndexError` (returned as `none`). -/
def pyIndex (len : Nat) (i : Int) : Option Nat :=
  let j := if i < 0 then i + len else i
  if 0 ≤ j ∧ j < len then some j.toNat else none

/-- Mutation through the `_current_touch` property,
`self.touches[self._touch_slot]`: resolve the cursor with Python list
indexing and apply `f` to the addressed touch, or raise `IndexError`. -/
def Touchscreen.modifyCurrent (ts : Touchscreen) (f : Touch → Touch) :
    Except PyError Touchscreen :=
  match pyIndex ts.touches.length ts.touch_slot with
  | none => .error .indexError
  | some k =>
    .ok { ts with touches := ts.touches.set k (f (ts.touches.getD k (Touch.init 0 0 0))) }

/-- The `EV_ABS` branch of `Touchscreen.poll`: the cascade of `if`
statements keyed on `event.code` (the six consumed codes are pairwise
distinct, so at most one branch fires per record). -/
def Touchscreen.processAbs (ts : Touchscreen) (code : Nat) (value : Int) :
    Except PyError Touchscreen :=
  let ts := if code = ABS_MT_SLOT then { ts with touch_slot := value } else ts
  match (if code = ABS_MT_TRACKING_ID then ts.modifyCurrent (fun t => t.setId value) else .ok ts) with
  | .error e => .error e
  | .ok ts =>
    match (if code = ABS_MT_POSITION_X then ts.modifyCurrent (fun t => t.setX value) else .ok ts) with
    | .error e => .error e
    | .ok ts =>
      match (if code = ABS_MT_POSITION_Y then ts.modifyCurrent (fun t => t.setY value) else .ok ts) with
      | .error e => .error e
      | .ok ts =>
        let ts := if code = ABS_X then { ts with position := ts.position.setX value } else ts
        let ts := if code = ABS_Y then { ts with position := ts.position.setY value } else ts
        .ok ts

/-- Outcome of one call to `Touchscreen.poll` over a list of decoded
records: `synced` is the `return self.touches` path at a SYN record (with
the unread rest of the input and the callback-invocation log), `failed` is
a propagated Python exception carrying the registry state at the moment it
was raised, and `blocked` means the input was exhausted with no SYN seen
(the Python loop would block on the next `read`). -/
inductive PollOutcome where
  | synced (ts : Touchscreen) (rest : List TouchEvent) (log : List Call)
  | failed (e : PyError) (ts : Touchscreen)
  | blocked (ts : Touchscreen)
deriving DecidableEq, Repr

/-- Registry state carried by a poll outcome. -/
def PollOutcome.state : PollOutcome → Touchscreen
  | .synced ts _ _ => ts
  | .failed _ ts => ts
  | .blocked ts => ts

/-- Callback-invocation log of a poll outcome (dispatch happens only on the
SYN path, so the other outcomes carry no invocations). -/
def PollOutcome.log : PollOutcome → List Call
  | .synced _ _ log => log
  | .failed _ _ => []
  | .blocked _ => []

/-- Whether the poll outcome is a propagated exception. -/
def PollOutcome.isFailure : PollOutcome → Bool
  | .failed _ _ => true
  | _ => false

/-- `Touchscreen.poll` over already-decoded records:
```
while True:
    event = self.read()
    if event.type == EV_SYN:
        for touch in self.touches:
            touch.handle_events()
        return self.touches
    if event.type == EV_ABS:
        ... (processAbs)
```
(The `self._thread`/`self._running` guard concerns only the background
thread's cooperative stop and is identity on the registry state.) -/
def Touchscreen.pollEvents (ts : Touchscreen) : List TouchEvent → PollOutcome
  | [] => .blocked ts
  | ev :: rest =>
    if ev.type = EV_SYN then
      .synced { ts with touches := (dispatchAll ts.touches).1 } rest (dispatchAll ts.touches).2
    else if ev.type = EV_ABS then
      match ts.processAbs ev.code ev.value with
      | .error e => .failed e ts
      | .ok ts' => ts'.pollEvents rest
    else ts.pollEvents rest

/-- `EVENT_SIZE = struct.calcsize('llHHi')` = 8 + 8 + 2 + 2 + 4 = 24 on the
target platform. -/
def EVENT_SIZE : Nat := 24

/-- Little-endian value of a byte list. -/
def leVal (bs : List Nat) : Nat :=
  bs.foldr (fun b acc => b % 256 + 256 * acc) 0

/-- Two's-complement reading of a `w`-byte little-endian field. -/
def signedVal (w : Nat) (bs : List Nat) : Int :=
  let n := leVal bs
  if n < 2 ^ (8 * w - 1) then (n : Int) else (n : Int) - 2 ^ (8 * w)

/-- `struct.unpack(EVENT_FORMAT, event)` followed by the `TouchEvent`
construction in `__iter__`: a buffer whose length is not exactly
`EVENT_SIZE` raises `struct.error` ("unpack requires a buffer of 24
bytes"); otherwise the fields are `tv_sec : int64`, `tv_usec : int64`,
`type : uint16`, `code : uint16`, `value : int32`, little endian. -/
def unpackEvent (bs : List Nat) : Except PyError TouchEvent :=
  if bs.length = EVENT_SIZE then
    let tv_sec := signedVal 8 (bs.take 8)
    let tv_usec := signedVal 8 ((bs.drop 8).take 8)
    let type := leVal ((bs.drop 16).take 2)
    let code := leVal ((bs.drop 18).take 2)
    let value := signedVal 4 (bs.drop 20)
    .ok { timestamp := (tv_sec : ℚ) + (tv_usec : ℚ) / 1000000,
          type := type, code := code, value := value }
  else .error (.structError EVENT_SIZE)

/-- Outcome of one call to `Touchscreen.poll` reading raw byte buffers. -/
inductive PollBOutcome where
  | synced (ts : Touchscreen) (rest : List (List Nat)) (log : List Call)
  | failed (e : PyError) (ts : Touchscreen)
deriving DecidableEq, Repr

/-- `Touchscreen.poll` at the byte level: the device is the list of byte
buffers successive `self._f_device.read(self.EVENT_SIZE)` calls return; at
end-of-stream `read` returns the empty buffer `b''`, whose unpacking raises
the same `struct.error` as any wrong-sized buffer. -/
def Touchscreen.pollBytes (ts : Touchscreen) : List (List Nat) → PollBOutcome
  | [] =>
    -- end-of-stream: read() returns b'' and struct.unpack of 0 bytes raises
    .failed (.structError EVENT_SIZE) ts
  | c :: cs =>
    match unpackEvent c with
    | .error e => .failed e ts
    | .ok ev =>
      if ev.type = EV_SYN then
        .synced { ts with touches := (dispatchAll ts.touches).1 } cs (dispatchAll ts.touches).2
      else if ev.type = EV_ABS then
        match ts.processAbs ev.code ev.value with
        | .error e => .failed e ts
        | .ok ts' => ts'.pollBytes cs
      else ts.pollBytes cs

/-- A sequence of coordinate writes to one touch within a frame: each entry
writes x (`true`) or y (`false`) with the given value, the id untouched. -/
def applyCoordWrites (t : Touch) : List (Bool × Int) → Touch
  | [] => t
  | w :: ws => applyCoordWrites (if w.1 then t.setX w.2 else t.setY w.2) ws

/-- A fresh touch on slot 0 with all three callbacks registered (as the
demonstration block of the source does for every touch). -/
def touchAllCb : Touch :=
  { Touch.init 0 0 0 with on_move := true, on_press := true, on_release := true }

/-- A touch whose frame appended `Press` first (tracking id became 5) and
`Move` second (x became 100). -/
def pressThenMoveTouch : Touch :=
  (touchAllCb.setId 5).setX 100

/-- A fresh touchscreen with all callbacks registered on all ten slots. -/
def tsAllCb : Touchscreen :=
  { Touchscreen.init with
    touches := Touchscreen.init.touches.map fun t =>
      { t with on_move := true, on_press := true, on_release := true } }

/-- One frame in which slot 0 receives a tracking id and then an x
coordinate before the sync barrier: the kernel appends `Press` before
`Move`. -/
def pressThenMoveFrame : List TouchEvent :=
  [{ timestamp := 0, type := EV_ABS, code := ABS_MT_TRACKING_ID, value := 5 },
   { timestamp := 0, type := EV_ABS, code := ABS_MT_POSITION_X, value := 100 },
   { timestamp := 0, type := EV_SYN, code := 0, value := 0 }]

/-- One frame that selects the out-of-range slot `-1` and then delivers a
tracking id to it. -/
def negSlotFrame : List TouchEvent :=
  [{ timestamp := 0, type := EV_ABS, code := ABS_MT_SLOT, value := -1 },
   { timestamp := 0, type := EV_ABS, code := ABS_MT_TRACKING_ID, value := 5 },
   { timestamp := 0, type := EV_SYN, code := 0, value := 0 }]

/-- A touchscreen whose slot cursor was set to `-1` by an `ABS_MT_SLOT`
record. -/
def tsNegCursor : Touchscreen :=
  { Touchscreen.init with touch_slot := -1 }

/-! ### Helper lemmas -/

theorem nodup_append_single {l : List Nat} {a : Nat} (h : l.Nodup) (ha : a ∉ l) :
    (l ++ [a]).Nodup := by
  simp [List.nodup_append, h, ha]

theorem setId_events_nodup (t : Touch) (v : Int) (h : t.events.Nodup) :
    (t.setId v).events.Nodup := by
  simp only [Touch.setId]
  split_ifs with h1 h2 h3
  · exact nodup_append_single h h2.2
  · exact h
  · exact nodup_append_single h h3
  · exact h

theorem setX_events_nodup (t : Touch) (v : Int) (h : t.events.Nodup) :
    (t.setX v).events.Nodup := by
  simp only [Touch.setX]
  split_ifs with h1
  · exact nodup_append_single h h1.2
  · exact h

theorem setY_events_nodup (t : Touch) (v : Int) (h : t.events.Nodup) :
    (t.setY v).events.Nodup := by
  simp only [Touch.setY]
  split_ifs with h1
  · exact nodup_append_single h h1.2
  · exact h

theorem applyCoordWrites_nodup (ws : List (Bool × Int)) :
    ∀ t : Touch, t.events.Nodup → (applyCoordWrites t ws).events.Nodup := by
  induction ws with
  | nil => exact fun t h => h
  | cons w ws ih =>
    intro t h
    show (applyCoordWrites (if w.1 then t.setX w.2 else t.setY w.2) ws).events.Nodup
    by_cases hw : w.1
    · rw [if_pos hw]; exact ih _ (setX_events_nodup t w.2 h)
    · rw [if_neg hw]; exact ih _ (setY_events_nodup t w.2 h)

/-! ### C2: the tracking-id setter -/

/-- Claim C2: for every touch and every integer `v`, setting the tracking id
to `v` when `v` equals the current id appends no event; when `v` differs,
`Release` is appended if `v = -1` and `Release` is not already pending,
otherwise `Press` is appended if `Press` is not already pending (and nothing
is appended if it is); in all cases the stored id becomes `v`. -/
theorem setId_spec (t : Touch) (v : Int) :
    (t.setId v).id = v ∧
    (v = t.id → (t.setId v).events = t.events) ∧
    (v ≠ t.id → v = -1 → TS_RELEASE ∉ t.events →
      (t.setId v).events = t.events ++ [TS_RELEASE]) ∧
    (v ≠ t.id → ¬(v = -1 ∧ TS_RELEASE ∉ t.events) → TS_PRESS ∉ t.events →
      (t.setId v).events = t.events ++ [TS_PRESS]) ∧
    (v ≠ t.id → ¬(v = -1 ∧ TS_RELEASE ∉ t.events) → TS_PRESS ∈ t.events →
      (t.setId v).events = t.events) := by
  refine ⟨rfl, ?_, ?_, ?_, ?_⟩
  · intro h; simp [Touch.setId, h]
  · intro h1 h2 h3; subst h2; simp [Touch.setId, h1, h3]
  · intro h1 h2 h3; simp [Touch.setId, h1, h2, h3]
  · intro h1 h2 h3; simp [Touch.setId, h1, h2, h3]

/-- Witness for C2 at a fresh touch receiving tracking id 5: no release is
possible, `Press` is appended, and the id is stored. -/
theorem setId_spec_witness :
    ((Touch.init 0 0 0).setId 5).id = 5 ∧
    ((Touch.init 0 0 0).setId 5).events = (Touch.init 0 0 0).events ++ [TS_PRESS] := by
  have h := setId_spec (Touch.init 0 0 0) 5
  exact ⟨h.1, h.2.2.2.1 (by decide) (by decide) (by decide)⟩

/-! ### C3: the coordinate setters -/

/-- Claim C3: setting the x (resp. y) coordinate to `v` appends `Move`
exactly when `v` differs from the current value and `Move` is not already
pending; `last_x` (resp. `last_y`) is unconditionally set to the
pre-mutation coordinate; and the stored coordinate becomes `v`. -/
theorem set_coord_spec (t : Touch) (v : Int) :
    (t.setX v).x = v ∧ (t.setX v).last_x = t.x ∧
    (v ≠ t.x ∧ TS_MOVE ∉ t.events → (t.setX v).events = t.events ++ [TS_MOVE]) ∧
    (¬(v ≠ t.x ∧ TS_MOVE ∉ t.events) → (t.setX v).events = t.events) ∧
    (t.setY v).y = v ∧ (t.setY v).last_y = t.y ∧
    (v ≠ t.y ∧ TS_MOVE ∉ t.events → (t.setY v).events = t.events ++ [TS_MOVE]) ∧
    (¬(v ≠ t.y ∧ TS_MOVE ∉ t.events) → (t.setY v).events = t.events) := by
  refine ⟨rfl, rfl, ?_, ?_, rfl, rfl, ?_, ?_⟩ <;>
    intro h <;> simp [Touch.setX, Touch.setY, h]

/-- Witness for C3: writing x = 7 to a fresh touch appends `Move`, records
`last_x = 0`, and stores 7; writing y = 0 (unchanged) appends nothing but
still records `last_y`. -/
theorem set_coord_spec_witness :
    ((Touch.init 0 0 0).setX 7).x = 7 ∧
    ((Touch.init 0 0 0).setX 7).last_x = (Touch.init 0 0 0).x ∧
    ((Touch.init 0 0 0).setX 7).events = (Touch.init 0 0 0).events ++ [TS_MOVE] ∧
    ((Touch.init 0 0 0).setY 0).events = (Touch.init 0 0 0).events ∧
    ((Touch.init 0 0 0).setY 0).last_y = (Touch.init 0 0 0).y := by
  have h7 := set_coord_spec (Touch.init 0 0 0) 7
  have h0 := set_coord_spec (Touch.init 0 0 0) 0
  exact ⟨h7.1, h7.2.1, h7.2.2.1 (by decide), h0.2.2.2.2.2.2.2 (by decide), h0.2.2.2.2.2.1⟩

/-! ### C4: no duplicate pending events, at most one Move per frame -/

/-- Claim C4: the pending-event list never contains duplicates — the
invariant is preserved by the id setter and both coordinate setters — and
consequently any sequence of coordinate writes that never changes the id
leaves at most one `Move` pending. -/
theorem pending_events_no_duplicates (t : Touch) (v : Int) (ws : List (Bool × Int))
    (h : t.events.Nodup) :
    (t.setId v).events.Nodup ∧ (t.setX v).events.Nodup ∧ (t.setY v).events.Nodup ∧
    List.count TS_MOVE (applyCoordWrites t ws).events ≤ 1 := by
  refine ⟨setId_events_nodup t v h, setX_events_nodup t v h, setY_events_nodup t v h, ?_⟩
  exact List.nodup_iff_count_le_one.mp (applyCoordWrites_nodup ws t h) TS_MOVE

/-- Witness for C4 at a fresh touch and three coordinate writes: all setter
results are duplicate-free and at most one `Move` is pending. -/
theorem pending_events_no_duplicates_witness :
    ((Touch.init 0 0 0).setId 5).events.Nodup ∧
    ((Touch.init 0 0 0).setX 5).events.Nodup ∧
    ((Touch.init 0 0 0).setY 5).events.Nodup ∧
    List.count TS_MOVE
      (applyCoordWrites (Touch.init 0 0 0) [(true, 3), (false, 4), (true, 6)]).events ≤ 1 :=
  pending_events_no_duplicates (Touch.init 0 0 0) 5 [(true, 3), (false, 4), (true, 6)]
    (by decide)

theorem setId_slot (t : Touch) (v : Int) : (t.setId v).slot = t.slot := by
  simp only [Touch.setId]; split_ifs <;> rfl

theorem setId_on_press (t : Touch) (v : Int) : (t.setId v).on_press = t.on_press := by
  simp only [Touch.setId]; split_ifs <;> rfl

theorem setId_on_release (t : Touch) (v : Int) : (t.setId v).on_release = t.on_release := by
  simp only [Touch.setId]; split_ifs <;> rfl

/-! ### Dispatch helpers -/

theorem callsFor_src (t : Touch) (e : Nat) (c : Call) (hc : c ∈ t.callsFor e) :
    c.src = .touchSlot t.slot := by
  unfold Touch.callsFor at hc
  simp only [List.mem_append] at hc
  rcases hc with (h | h) | h <;> (split_ifs at h <;> simp_all)

theorem callsFor_all_registered (t : Touch) (hm : t.on_move = true) (hp : t.on_press = true)
    (hr : t.on_release = true) (e : Nat)
    (he : e = TS_PRESS ∨ e = TS_RELEASE ∨ e = TS_MOVE) :
    t.callsFor e = [Call.mk (.touchSlot t.slot) e] := by
  rcases he with h | h | h <;> subst h <;>
    simp [Touch.callsFor, hm, hp, hr, TS_PRESS, TS_RELEASE, TS_MOVE]

theorem flatMap_callsFor_eq_map (t : Touch) (hm : t.on_move = true) (hp : t.on_press = true)
    (hr : t.on_release = true) :
    ∀ l : List Nat, (∀ e ∈ l, e = TS_PRESS ∨ e = TS_RELEASE ∨ e = TS_MOVE) →
      l.flatMap t.callsFor = l.map fun e => Call.mk (.touchSlot t.slot) e := by
  intro l
  induction l with
  | nil => intro; rfl
  | cons e es ih =>
    intro h
    rw [List.flatMap_cons, List.map_cons,
      callsFor_all_registered t hm hp hr e (h e (List.mem_cons_self e es)),
      ih fun x hx => h x (List.mem_cons_of_mem _ hx)]
    rfl

theorem dispatchAll_events_nil (l : List Touch) :
    ∀ t ∈ (dispatchAll l).1, t.events = [] := by
  induction l with
  | nil => intro t ht; simp [dispatchAll] at ht
  | cons x xs ih =>
    intro t ht
    simp only [dispatchAll, List.mem_cons] at ht
    rcases ht with h | h
    · subst h; rfl
    · exact ih t h

theorem dispatchAll_log_join (l : List Touch) :
    (dispatchAll l).2 = (l.map fun t => (t.handle_events).2).flatten := by
  induction l with
  | nil => rfl
  | cons x xs ih => simp [dispatchAll, ih]

theorem dispatchAll_src (l : List Touch) (c : Call) (hc : c ∈ (dispatchAll l).2) :
    c.src.isPosition = false := by
  induction l with
  | nil => simp [dispatchAll] at hc
  | cons x xs ih =>
    simp only [dispatchAll, List.mem_append] at hc
    rcases hc with h | h
    · simp only [Touch.handle_events, List.mem_flatMap] at h
      obtain ⟨e, _, he⟩ := h
      rw [callsFor_src x e c he]
      rfl
    · exact ih h

/-! ### C1: dispatch order at a sync barrier -/

/-- Counterexample to claim C1.  In a frame where slot 0 received a tracking
id (appending `Press`) and then an x coordinate (appending `Move`), the
dispatcher at the sync barrier invokes `on_press` before `on_move` — the
insertion order — not the claimed fixed order Move, then Press. -/
theorem dispatch_order_counterexample :
    (tsAllCb.pollEvents pressThenMoveFrame).log =
      [Call.mk (.touchSlot 0) TS_PRESS, Call.mk (.touchSlot 0) TS_MOVE] ∧
    (tsAllCb.pollEvents pressThenMoveFrame).log ≠
      [Call.mk (.touchSlot 0) TS_MOVE, Call.mk (.touchSlot 0) TS_PRESS] := by
  constructor
  · decide
  · decide

/-- Claim C1 as amended: for every touch with all three callbacks
registered and pending events drawn from {Press, Release, Move}, the
dispatcher invokes exactly one callback per pending event in the order the
events were appended during the frame (insertion order of the pending
list), and clears the pending list. -/
theorem dispatch_insertion_order (t : Touch) (hm : t.on_move = true) (hp : t.on_press = true)
    (hr : t.on_release = true)
    (he : ∀ e ∈ t.events, e = TS_PRESS ∨ e = TS_RELEASE ∨ e = TS_MOVE) :
    (t.handle_events).2 = t.events.map (fun e => Call.mk (.touchSlot t.slot) e) ∧
    (t.handle_events).1.events = [] :=
  ⟨flatMap_callsFor_eq_map t hm hp hr t.events he, rfl⟩

/-- Witness for the amended C1 at a touch whose frame appended `Press` then
`Move`: the invocation sequence is exactly the pending list in insertion
order. -/
theorem dispatch_insertion_order_witness :
    (pressThenMoveTouch.handle_events).2 =
      pressThenMoveTouch.events.map (fun e => Call.mk (.touchSlot pressThenMoveTouch.slot) e) ∧
    (pressThenMoveTouch.handle_events).1.events = [] :=
  dispatch_insertion_order pressThenMoveTouch rfl rfl rfl (by decide)

/-! ### C5: a SYN record dispatches and clears every slot -/

/-- Claim C5: whenever a SYN record is processed, the decoder dispatches
the pending events of every slot in the registry — the invocation log is
the concatenation, in slot order, of each touch's callback invocations —
afterwards the pending-event list of every slot is empty (also slots that
received no records during the frame, since the pre-state is arbitrary),
and the poll cycle ends returning the touch collection with the rest of
the input unread. -/
theorem syn_dispatches_all_and_clears (ts : Touchscreen) (ev : TouchEvent)
    (rest : List TouchEvent) (h : ev.type = EV_SYN) :
    ts.pollEvents (ev :: rest) =
      .synced { ts with touches := (dispatchAll ts.touches).1 } rest
        (dispatchAll ts.touches).2 ∧
    (∀ t ∈ (dispatchAll ts.touches).1, t.events = []) ∧
    (dispatchAll ts.touches).2 = (ts.touches.map fun t => (t.handle_events).2).flatten := by
  refine ⟨?_, dispatchAll_events_nil _, dispatchAll_log_join _⟩
  simp [Touchscreen.pollEvents, h]

/-- Witness for C5: a lone SYN record on a registry with a pending press on
slot 0 ends the poll cycle with every slot's pending list empty. -/
theorem syn_dispatches_all_and_clears_witness :
    tsAllCb.pollEvents [{ timestamp := 0, type := EV_SYN, code := 0, value := 0 }] =
      .synced { tsAllCb with touches := (dispatchAll tsAllCb.touches).1 } []
        (dispatchAll tsAllCb.touches).2 ∧
    (∀ t ∈ (dispatchAll tsAllCb.touches).1, t.events = []) ∧
    (dispatchAll tsAllCb.touches).2 = (tsAllCb.touches.map fun t => (t.handle_events).2).flatten :=
  syn_dispatches_all_and_clears tsAllCb { timestamp := 0, type := EV_SYN, code := 0, value := 0 }
    [] rfl

/-! ### C6: press and release in one frame -/

/-- Claim C6: a touch whose id is set from -1 to 5 and back to -1 within a
single frame has both `Press` and `Release` pending at the barrier, the
dispatcher fires `on_press` before `on_release`, and after dispatch the
touch reports `valid = false`. -/
theorem press_then_release_one_frame (t : Touch) (h0 : t.events = []) (h1 : t.id = -1)
    (hp : t.on_press = true) (hr : t.on_release = true) :
    ((t.setId 5).setId (-1)).events = [TS_PRESS, TS_RELEASE] ∧
    (((t.setId 5).setId (-1)).handle_events).2 =
      [Call.mk (.touchSlot t.slot) TS_PRESS, Call.mk (.touchSlot t.slot) TS_RELEASE] ∧
    ((((t.setId 5).setId (-1)).handle_events).1).valid = false := by
  have hev : ((t.setId 5).setId (-1)).events = [TS_PRESS, TS_RELEASE] := by
    simp [Touch.setId, h0, h1, TS_PRESS, TS_RELEASE]
  have hid : ((t.setId 5).setId (-1)).id = -1 := rfl
  refine ⟨hev, ?_, ?_⟩
  · show ((t.setId 5).setId (-1)).events.flatMap ((t.setId 5).setId (-1)).callsFor = _
    have hp' : ((t.setId 5).setId (-1)).on_press = true := by
      rw [setId_on_press, setId_on_press, hp]
    have hr' : ((t.setId 5).setId (-1)).on_release = true := by
      rw [setId_on_release, setId_on_release, hr]
    have hs' : ((t.setId 5).setId (-1)).slot = t.slot := by
      rw [setId_slot, setId_slot]
    rw [hev]
    simp [Touch.callsFor, hp', hr', hs', TS_PRESS, TS_RELEASE, TS_MOVE]
  · simp [Touch.valid, Touch.handle_events, hid]

/-- Witness for C6 at a fresh touch with callbacks registered. -/
theorem press_then_release_one_frame_witness :
    ((touchAllCb.setId 5).setId (-1)).events = [TS_PRESS, TS_RELEASE] ∧
    (((touchAllCb.setId 5).setId (-1)).handle_events).2 =
      [Call.mk (.touchSlot touchAllCb.slot) TS_PRESS,
       Call.mk (.touchSlot touchAllCb.slot) TS_RELEASE] ∧
    ((((touchAllCb.setId 5).setId (-1)).handle_events).1).valid = false :=
  press_then_release_one_frame touchAllCb rfl rfl rfl rfl

/-! ### C7: end-of-stream handling -/

/-- Counterexample to claim C7.  End-of-stream (the device file returns the
empty buffer) makes `poll` fail with exactly the same exception value as a
malformed ten-byte record does: `struct.error` demanding a 24-byte buffer.
The condition is therefore not surfaced as a failure distinguishable from
the protocol (wrong-record-size) error. -/
theorem eof_error_equals_malformed_error :
    Touchscreen.init.pollBytes [] =
      .failed (.structError EVENT_SIZE) Touchscreen.init ∧
    Touchscreen.init.pollBytes [List.replicate 10 0] =
      .failed (.structError EVENT_SIZE) Touchscreen.init := by
  constructor
  · rfl
  · decide

/-- Claim C7 as amended: end-of-stream stops decoding and surfaces to the
caller as the struct-unpack error — it is never silently swallowed — but it
is the very error any wrong-sized record produces, so the caller cannot
distinguish device disconnection from a protocol-size violation. -/
theorem eof_stops_decoding_as_struct_error (ts : Touchscreen) (c : List Nat)
    (cs : List (List Nat)) (h : c.length ≠ EVENT_SIZE) :
    ts.pollBytes [] = .failed (.structError EVENT_SIZE) ts ∧
    ts.pollBytes (c :: cs) = .failed (.structError EVENT_SIZE) ts := by
  constructor
  · rfl
  · simp [Touchscreen.pollBytes, unpackEvent, h]

/-- Witness for the amended C7: a fresh touchscreen, at end-of-stream and at
a three-byte record, fails with the same struct error. -/
theorem eof_stops_decoding_as_struct_error_witness :
    Touchscreen.init.pollBytes [] =
      .failed (.structError EVENT_SIZE) Touchscreen.init ∧
    Touchscreen.init.pollBytes [[1, 2, 3]] =
      .failed (.structError EVENT_SIZE) Touchscreen.init :=
  eof_stops_decoding_as_struct_error Touchscreen.init [1, 2, 3] [] (by decide)

/-! ### C8: malformed records leave the registry untouched -/

/-- Claim C8: reading a record whose byte length differs from the fixed
record size raises the struct-unpack (protocol) error, and the registry
state carried out by the failure — every slot's id, coordinates, pending
events, and the slot cursor — is exactly the state from before the
malformed read. -/
theorem malformed_record_leaves_state (ts : Touchscreen) (c : List Nat)
    (cs : List (List Nat)) (h : c.length ≠ EVENT_SIZE) :
    ts.pollBytes (c :: cs) = .failed (.structError EVENT_SIZE) ts := by
  simp [Touchscreen.pollBytes, unpackEvent, h]

/-- Witness for C8: a 23-byte record fails and returns the pre-read
registry unchanged. -/
theorem malformed_record_leaves_state_witness :
    Touchscreen.init.pollBytes [List.replicate 23 0] =
      .failed (.structError EVENT_SIZE) Touchscreen.init :=
  malformed_record_leaves_state Touchscreen.init (List.replicate 23 0) [] (by decide)

/-! ### C9: out-of-range slot selection -/

/-- Counterexample to claim C9.  Selecting the out-of-range slot `-1` and
then delivering a tracking id neither clamps the cursor nor fails: the poll
succeeds, the cursor remains `-1`, and the touch whose slot identity is 9 —
not the slot the kernel named — received the tracking id 5. -/
theorem slot_select_out_of_range_counterexample :
    (Touchscreen.init.pollEvents negSlotFrame).isFailure = false ∧
    (Touchscreen.init.pollEvents negSlotFrame).state.touch_slot = -1 ∧
    ((Touchscreen.init.pollEvents negSlotFrame).state.touches.getD 9
      (Touch.init 0 0 0)).id = 5 ∧
    ((Touchscreen.init.pollEvents negSlotFrame).state.touches.getD 9
      (Touch.init 0 0 0)).slot = 9 := by
  refine ⟨?_, ?_, ?_, ?_⟩ <;> decide

/-- Claim C9 as amended: selecting slot `n` installs the cursor unchecked
and never fails at selection time; a subsequent per-slot mutation then
follows Python list indexing: for `0 ≤ n < 10` it rewrites slot `n`, for
`-10 ≤ n < 0` it silently rewrites slot `n + 10` (a slot other than the one
the kernel named), and only for `n < -10` or `n ≥ 10` does it fail, with
`IndexError` raised at the later access rather than at selection. -/
theorem slot_select_unchecked (ts : Touchscreen) (n v : Int)
    (hlen : ts.touches.length = 10) (hsel : ts.touch_slot = n) :
    ts.processAbs ABS_MT_SLOT n = .ok { ts with touch_slot := n } ∧
    (0 ≤ n → n < 10 → ts.processAbs ABS_MT_TRACKING_ID v =
      .ok { ts with touches := ts.touches.set n.toNat ((ts.touches.getD n.toNat (Touch.init 0 0 0)).setId v) }) ∧
    (-10 ≤ n → n < 0 → ts.processAbs ABS_MT_TRACKING_ID v =
      .ok { ts with touches := ts.touches.set (n + 10).toNat ((ts.touches.getD (n + 10).toNat (Touch.init 0 0 0)).setId v) }) ∧
    ((n < -10 ∨ 10 ≤ n) → ts.processAbs ABS_MT_TRACKING_ID v = .error .indexError) := by
  have hmc : ∀ f : Touch → Touch, ts.modifyCurrent f =
      match pyIndex 10 n with
      | none => .error .indexError
      | some k =>
        .ok { ts with touches := ts.touches.set k (f (ts.touches.getD k (Touch.init 0 0 0))) } := by
    intro f
    rw [Touchscreen.modifyCurrent, hlen, hsel]
  refine ⟨?_, ?_, ?_, ?_⟩
  · simp [Touchscreen.processAbs, ABS_MT_SLOT, ABS_MT_TRACKING_ID, ABS_MT_POSITION_X,
      ABS_MT_POSITION_Y, ABS_X, ABS_Y]
  · intro h0 h1
    have hpi : pyIndex 10 n = some n.toNat := by
      simp only [pyIndex]
      split_ifs <;> first | rfl | (exfalso; omega)
    simp [Touchscreen.processAbs, ABS_MT_SLOT, ABS_MT_TRACKING_ID, ABS_MT_POSITION_X,
      ABS_MT_POSITION_Y, ABS_X, ABS_Y, hmc, hpi]
  · intro h0 h1
    have hpi : pyIndex 10 n = some (n + 10).toNat := by
      simp only [pyIndex]
      split_ifs <;> first | rfl | (exfalso; omega)
    simp [Touchscreen.processAbs, ABS_MT_SLOT, ABS_MT_TRACKING_ID, ABS_MT_POSITION_X,
      ABS_MT_POSITION_Y, ABS_X, ABS_Y, hmc, hpi]
  · intro h0
    have hpi : pyIndex 10 n = none := by
      simp only [pyIndex]
      split_ifs <;> first | rfl | (exfalso; omega)
    simp [Touchscreen.processAbs, ABS_MT_SLOT, ABS_MT_TRACKING_ID, ABS_MT_POSITION_X,
      ABS_MT_POSITION_Y, ABS_X, ABS_Y, hmc, hpi]

/-- Witness for the amended C9: with the cursor at `-1` over ten slots, a
tracking-id record rewrites the touch at index 9. -/
theorem slot_select_unchecked_witness :
    tsNegCursor.processAbs ABS_MT_TRACKING_ID 5 =
      .ok { tsNegCursor with touches := tsNegCursor.touches.set ((-1 : Int) + 10).toNat ((tsNegCursor.touches.getD ((-1 : Int) + 10).toNat (Touch.init 0 0 0)).setId 5) } :=
  (slot_select_unchecked tsNegCursor (-1) 5 (by decide) rfl).2.2.1 (by decide) (by decide)

/-! ### Position-object helpers -/

theorem setX_events_extend (t : Touch) (v : Int) :
    ∃ tail, (t.setX v).events = t.events ++ tail := by
  simp only [Touch.setX]
  split_ifs with h
  · exact ⟨[TS_MOVE], rfl⟩
  · exact ⟨[], (List.append_nil _).symm⟩

theorem setY_events_extend (t : Touch) (v : Int) :
    ∃ tail, (t.setY v).events = t.events ++ tail := by
  simp only [Touch.setY]
  split_ifs with h
  · exact ⟨[TS_MOVE], rfl⟩
  · exact ⟨[], (List.append_nil _).symm⟩

theorem modifyCurrent_position (ts : Touchscreen) (f : Touch → Touch) (ts' : Touchscreen)
    (h : ts.modifyCurrent f = .ok ts') : ts'.position = ts.position := by
  unfold Touchscreen.modifyCurrent at h
  split at h
  · exact absurd h (by simp)
  · rw [Except.ok.injEq] at h
    subst h
    rfl

theorem processAbs_ok_position (ts : Touchscreen) (code : Nat) (v : Int) (ts' : Touchscreen)
    (h : ts.processAbs code v = .ok ts') :
    ∃ tail, ts'.position.events = ts.position.events ++ tail := by
  by_cases c1 : code = ABS_MT_SLOT
  · subst c1
    simp [Touchscreen.processAbs, ABS_MT_SLOT, ABS_MT_TRACKING_ID, ABS_MT_POSITION_X,
      ABS_MT_POSITION_Y, ABS_X, ABS_Y] at h
    exact ⟨[], by rw [← h, List.append_nil]⟩
  by_cases c2 : code = ABS_MT_TRACKING_ID
  · subst c2
    simp [Touchscreen.processAbs, ABS_MT_SLOT, ABS_MT_TRACKING_ID, ABS_MT_POSITION_X,
      ABS_MT_POSITION_Y, ABS_X, ABS_Y] at h
    rcases hmc : ts.modifyCurrent fun t => t.setId v with e | ts1 <;> rw [hmc] at h
    · exact absurd h (by simp)
    · simp only [Except.ok.injEq] at h
      subst h
      exact ⟨[], by rw [modifyCurrent_position _ _ _ hmc, List.append_nil]⟩
  by_cases c3 : code = ABS_MT_POSITION_X
  · subst c3
    simp [Touchscreen.processAbs, ABS_MT_SLOT, ABS_MT_TRACKING_ID, ABS_MT_POSITION_X,
      ABS_MT_POSITION_Y, ABS_X, ABS_Y] at h
    rcases hmc : ts.modifyCurrent fun t => t.setX v with e | ts1 <;> rw [hmc] at h
    · exact absurd h (by simp)
    · simp only [Except.ok.injEq] at h
      subst h
      exact ⟨[], by rw [modifyCurrent_position _ _ _ hmc, List.append_nil]⟩
  by_cases c4 : code = ABS_MT_POSITION_Y
  · subst c4
    simp [Touchscreen.processAbs, ABS_MT_SLOT, ABS_MT_TRACKING_ID, ABS_MT_POSITION_X,
      ABS_MT_POSITION_Y, ABS_X, ABS_Y] at h
    rcases hmc : ts.modifyCurrent fun t => t.setY v with e | ts1 <;> rw [hmc] at h
    · exact absurd h (by simp)
    · simp only [Except.ok.injEq] at h
      subst h
      exact ⟨[], by rw [modifyCurrent_position _ _ _ hmc, List.append_nil]⟩
  by_cases c5 : code = ABS_X
  · subst c5
    simp [Touchscreen.processAbs, ABS_MT_SLOT, ABS_MT_TRACKING_ID, ABS_MT_POSITION_X,
      ABS_MT_POSITION_Y, ABS_X, ABS_Y] at h
    obtain ⟨tl, htl⟩ := setX_events_extend ts.position v
    exact ⟨tl, by rw [← h]; exact htl⟩
  by_cases c6 : code = ABS_Y
  · subst c6
    simp [Touchscreen.processAbs, ABS_MT_SLOT, ABS_MT_TRACKING_ID, ABS_MT_POSITION_X,
      ABS_MT_POSITION_Y, ABS_X, ABS_Y] at h
    obtain ⟨tl, htl⟩ := setY_events_extend ts.position v
    exact ⟨tl, by rw [← h]; exact htl⟩
  · simp [Touchscreen.processAbs, c1, c2, c3, c4, c5, c6] at h
    exact ⟨[], by rw [← h, List.append_nil]⟩

theorem pollEvents_position_extend (evs : List TouchEvent) :
    ∀ ts : Touchscreen, ∃ tail,
      ((ts.pollEvents evs).state).position.events = ts.position.events ++ tail := by
  induction evs with
  | nil =>
    intro ts
    exact ⟨[], by simp [Touchscreen.pollEvents, PollOutcome.state]⟩
  | cons ev rest ih =>
    intro ts
    by_cases h1 : ev.type = EV_SYN
    · refine ⟨[], ?_⟩
      simp [Touchscreen.pollEvents, h1, PollOutcome.state]
    · by_cases h2 : ev.type = EV_ABS
      · rcases hp : ts.processAbs ev.code ev.value with e | ts'
        · refine ⟨[], ?_⟩
          simp [Touchscreen.pollEvents, EV_SYN, EV_ABS, h1, h2, hp, PollOutcome.state]
        · obtain ⟨t1, ht1⟩ := processAbs_ok_position ts ev.code ev.value ts' hp
          obtain ⟨t2, ht2⟩ := ih ts'
          refine ⟨t1 ++ t2, ?_⟩
          rw [show (ts.pollEvents (ev :: rest)) = ts'.pollEvents rest by
            simp [Touchscreen.pollEvents, EV_SYN, EV_ABS, h1, h2, hp]]
          rw [ht2, ht1, List.append_assoc]
      · obtain ⟨tail, ht⟩ := ih ts
        refine ⟨tail, ?_⟩
        rw [show (ts.pollEvents (ev :: rest)) = ts.pollEvents rest by
          simp [Touchscreen.pollEvents, h1, h2]]
        exact ht

theorem pollEvents_log_src (evs : List TouchEvent) :
    ∀ ts : Touchscreen, ∀ c ∈ (ts.pollEvents evs).log, c.src.isPosition = false := by
  induction evs with
  | nil =>
    intro ts c hc
    simp [Touchscreen.pollEvents, PollOutcome.log] at hc
  | cons ev rest ih =>
    intro ts c hc
    by_cases h1 : ev.type = EV_SYN
    · rw [show (ts.pollEvents (ev :: rest)) =
          .synced { ts with touches := (dispatchAll ts.touches).1 } rest
            (dispatchAll ts.touches).2 by
        simp [Touchscreen.pollEvents, h1]] at hc
      exact dispatchAll_src _ c hc
    · by_cases h2 : ev.type = EV_ABS
      · rcases hp : ts.processAbs ev.code ev.value with e | ts'
        · rw [show (ts.pollEvents (ev :: rest)) = .failed e ts by
            simp [Touchscreen.pollEvents, EV_SYN, EV_ABS, h1, h2, hp]] at hc
          simp [PollOutcome.log] at hc
        · rw [show (ts.pollEvents (ev :: rest)) = ts'.pollEvents rest by
            simp [Touchscreen.pollEvents, EV_SYN, EV_ABS, h1, h2, hp]] at hc
          exact ih ts' c hc
      · rw [show (ts.pollEvents (ev :: rest)) = ts.pollEvents rest by
          simp [Touchscreen.pollEvents, h1, h2]] at hc
        exact ih ts c hc

/-! ### C10: the position object is never dispatched -/

/-- Claim C10: `ABS_X`/`ABS_Y` records route to the single-touch position
object through its coordinate setters (appending `Move` as the setters
prescribe), but no poll over any record sequence ever clears its
pending-event list — the pre-existing events always remain as a prefix —
and no logged callback invocation originates from the position object,
because the SYN dispatch loop iterates only the ten slot touches. -/
theorem position_never_dispatched (ts : Touchscreen) (evs : List TouchEvent) :
    (∃ tail, ((ts.pollEvents evs).state).position.events = ts.position.events ++ tail) ∧
    ((ts.pollEvents evs).log.all fun c => !(c.src.isPosition)) = true ∧
    (∀ v : Int, ts.processAbs ABS_X v = .ok { ts with position := ts.position.setX v }) ∧
    (∀ v : Int, ts.processAbs ABS_Y v = .ok { ts with position := ts.position.setY v }) := by
  refine ⟨pollEvents_position_extend evs ts, ?_, ?_, ?_⟩
  · rw [List.all_eq_true]
    intro c hc
    rw [pollEvents_log_src evs ts c hc]
    rfl
  · intro v
    simp [Touchscreen.processAbs, ABS_MT_SLOT, ABS_MT_TRACKING_ID, ABS_MT_POSITION_X,
      ABS_MT_POSITION_Y, ABS_X, ABS_Y]
  · intro v
    simp [Touchscreen.processAbs, ABS_MT_SLOT, ABS_MT_TRACKING_ID, ABS_MT_POSITION_X,
      ABS_MT_POSITION_Y, ABS_X, ABS_Y]

end FT5406
